import Mathlib

/-!
Verification of the Serverless-Rag backend (document ingestion and
retrieval-augmented chat pipeline) against its natural-language
specification.

The Python services under `backend/services/` are shallowly embedded as
executable Lean definitions:

* `validate_file`        ← `ServiceBase.validate_file` (service_base.py)
* `upload_file`          ← `FileService.upload_file` (file_service.py)
* `list_files`           ← `FileService.list_files`
* `get_file`             ← `FileService.get_file`
* `delete_file`          ← `FileService.delete_file`
* `chat_with_file`       ← `ChatService.chat_with_file` (chat_service.py)
* `get_or_create_store`  ← `GeminiService.get_or_create_store` (gemini_service.py)
* `generate_summary_and_keywords` ← `GeminiService.generate_summary_and_keywords`
* `poll_loop_trace`      ← the wait loop of `GeminiService.upload_and_index_file`

External collaborators (MinIO object storage, Firestore, the Gemini API)
are modelled as explicit state (`World`) plus outcome parameters that range
over the behaviours the SDK calls can exhibit (success, transport error,
empty response).  Machine integers do not overflow in the modelled code
paths, so sizes and timestamps are `Nat`.
-/

deriving instance DecidableEq for Except

/-- An HTTP error as raised by `fastapi.HTTPException`: a status code and a
human-readable detail message. -/
structure HTTPError where
  status : Nat
  detail : String
deriving DecidableEq, Repr

/-- An incoming multipart upload: filename (empty string models a missing
filename, matching the Python falsiness check `if not file.filename`),
raw content bytes, and the declared content type of the part. -/
structure UploadFile where
  filename : String
  content : List Nat
  content_type : Option String
deriving DecidableEq, Repr

/-- `ALLOWED_FILE_TYPES` from service_base.py. -/
def ALLOWED_FILE_TYPES : List String :=
  ["pdf", "docx", "doc", "txt", "md", "csv", "xlsx", "xls", "pptx", "ppt"]

/-- `MAX_FILE_SIZE = 100 * 1024 * 1024` from service_base.py (100 MiB). -/
def MAX_FILE_SIZE : Nat := 100 * 1024 * 1024

/-- Python `str.split(sep)` for a one-character separator, on the character
list of a string; always returns a non-empty list (`"" ↦ [""]`). -/
def splitOnCharList (sep : Char) : List Char → List (List Char)
  | [] => [[]]
  | c :: cs =>
    let r := splitOnCharList sep cs
    if c = sep then [] :: r
    else (c :: r.headD []) :: r.tail

/-- Python `str.lower` (ASCII range, which covers the extensions here). -/
def toLowerStr (s : String) : String :=
  String.mk (s.data.map Char.toLower)

/-- `filename.split(".")[-1].lower()`: the substring after the last dot,
lower-cased (for a dotless name, the whole name). -/
def fileExtension (filename : String) : String :=
  toLowerStr (String.mk ((splitOnCharList '.' filename.data).getLastD []))

/-- The `mime_to_ext` dictionary from `ServiceBase.validate_file`. -/
def mime_to_ext : List (String × String) :=
  [("application/vnd.openxmlformats-officedocument.wordprocessingml.document", "docx"),
   ("application/vnd.ms-excel", "xls"),
   ("application/vnd.openxmlformats-officedocument.spreadsheetml.sheet", "xlsx"),
   ("application/vnd.ms-powerpoint", "ppt"),
   ("application/vnd.openxmlformats-officedocument.presentationml.presentation", "pptx"),
   ("text/markdown", "md"),
   ("text/plain", "txt"),
   ("text/csv", "csv")]

/-- Type-tag resolution from `ServiceBase.validate_file`: prefer the
filename extension when allowed; otherwise consult
`mimetypes.guess_type(file.filename)` — a pure lookup keyed on the
FILENAME, passed here as the oracle `guess_type` — and map the guessed
MIME type through `mime_to_ext` with the raw extension as default;
with no guess, fall back to the raw extension.  Note the declared
content type of the upload plays no role. -/
def resolve_file_type (guess_type : String → Option String) (filename : String) : String :=
  let file_extension := fileExtension filename
  if file_extension ∈ ALLOWED_FILE_TYPES then
    file_extension
  else
    match guess_type filename with
    | some mime_type => (mime_to_ext.lookup mime_type).getD file_extension
    | none => file_extension

/-- `ServiceBase.validate_file`: reject a missing filename (400), compute the
byte length, reject oversize content (413), resolve the type tag and reject
tags outside `ALLOWED_FILE_TYPES` (400); otherwise return (type, size).
Reading the stream and seeking back to 0 leaves the upload unchanged, so the
model is a pure function of the upload. -/
def validate_file (guess_type : String → Option String) (file : UploadFile) :
    Except HTTPError (String × Nat) :=
  if file.filename = "" then
    .error ⟨400, "File must have a filename"⟩
  else
    let file_size := file.content.length
    if file_size > MAX_FILE_SIZE then
      .error ⟨413, "File size exceeds maximum"⟩
    else
      let file_type := resolve_file_type guess_type file.filename
      if file_type ∈ ALLOWED_FILE_TYPES then
        .ok (file_type, file_size)
      else
        .error ⟨400, "File type not allowed"⟩

/-- Modelled environment for `mimetypes.guess_type`: the Python standard
registry restricted to the extensions relevant to this backend; unknown
suffixes (e.g. `.foo`, `.exe` is known but maps outside the table) give
the registry answer, everything unlisted gives `none`. -/
def python_mime_registry : List (String × String) :=
  [("pdf", "application/pdf"),
   ("txt", "text/plain"),
   ("csv", "text/csv"),
   ("md", "text/markdown"),
   ("doc", "application/msword"),
   ("docx", "application/vnd.openxmlformats-officedocument.wordprocessingml.document"),
   ("xls", "application/vnd.ms-excel"),
   ("xlsx", "application/vnd.openxmlformats-officedocument.spreadsheetml.sheet"),
   ("ppt", "application/vnd.ms-powerpoint"),
   ("pptx", "application/vnd.openxmlformats-officedocument.presentationml.presentation"),
   ("exe", "application/x-msdownload")]

/-- `mimetypes.guess_type` modelled on the registry above: keyed by the
lower-cased filename suffix. -/
def python_guess_type (filename : String) : Option String :=
  python_mime_registry.lookup (fileExtension filename)

/-- Python `str.strip()` on a character list: drop Unicode whitespace from
both ends. -/
def trimChars (cs : List Char) : List Char :=
  ((cs.dropWhile Char.isWhitespace).reverse.dropWhile Char.isWhitespace).reverse

/-- Python `str.strip()` on strings. -/
def trimStr (s : String) : String :=
  String.mk (trimChars s.data)

/-- Python `str.strip("[]")`: drop leading and trailing characters drawn
from the set `{ [ , ] }`. -/
def stripSquareBrackets (s : String) : String :=
  let isBr := fun c => c = '[' ∨ c = ']'
  String.mk (((s.data.dropWhile isBr).reverse.dropWhile isBr).reverse)

/-- Python `str.replace(pat, repl)` for a non-empty pattern, fuelled by the
input length (each step consumes at least one character). -/
def replaceAllAux (pat repl : List Char) : Nat → List Char → List Char
  | 0, cs => cs
  | _ + 1, [] => []
  | fuel + 1, c :: cs =>
    if pat.isPrefixOf (c :: cs) then
      repl ++ replaceAllAux pat repl fuel ((c :: cs).drop pat.length)
    else
      c :: replaceAllAux pat repl fuel cs

/-- Python `str.replace(pat, repl)` (non-empty `pat`; the embedded code only
strips the literal tags `SUMMARY:` and `KEYWORDS:`). -/
def replaceAll (s pat repl : String) : String :=
  String.mk (replaceAllAux pat.data repl.data s.data.length s.data)

/-- Python `str.startswith`. -/
def startsWithStr (s pre : String) : Bool :=
  pre.data.isPrefixOf s.data

/-- Python slicing `s[:n]` (by characters, as in Python). -/
def takeStr (s : String) (n : Nat) : String :=
  String.mk (s.data.take n)

/-- Outcome of one `client.models.generate_content` call, as observed by the
caller: the SDK call either raises (transport/API error) or returns a
response whose `.text` is `None` or a string. -/
inductive GenOutcome where
  | apiError (msg : String)
  | response (text : Option String)
deriving DecidableEq, Repr

/-- The parsing loop of `GeminiService.generate_summary_and_keywords`:
`for line in text.split("\n")`, a `SUMMARY:` line overwrites the summary
accumulator with its tag-stripped, trimmed remainder; a `KEYWORDS:` line
overwrites the keyword accumulator with the comma-split, trimmed,
bracket-stripped, non-empty entries. -/
def summaryParseStep (acc : String × List String) (line : String) : String × List String :=
  if startsWithStr line "SUMMARY:" then
    (trimStr (replaceAll line "SUMMARY:" ""), acc.2)
  else if startsWithStr line "KEYWORDS:" then
    let kw_text := trimStr (replaceAll line "KEYWORDS:" "")
    (acc.1,
      (splitOnCharList ',' kw_text.data).filterMap fun k =>
        let kt := trimChars k
        if kt = [] then none else some (stripSquareBrackets (String.mk kt)))
  else
    acc

/-- `GeminiService.generate_summary_and_keywords`.  The result depends only
on the generation outcome (the prompt is built from the file content and
filename but never parsed back), so those arguments are not taken.
On an SDK exception: `("Summary generation failed", [])`.
On a falsy `response.text` (None or empty): `("No summary available", [])`.
Otherwise parse the line-oriented format, fall back to the first 300
characters of the raw text when no summary was parsed, and truncate to
300 characters / 6 keywords. -/
def generate_summary_and_keywords (outcome : GenOutcome) : String × List String :=
  match outcome with
  | .apiError _ => ("Summary generation failed", [])
  | .response none => ("No summary available", [])
  | .response (some text) =>
    if text = "" then
      ("No summary available", [])
    else
      let parsed := ((splitOnCharList '\n' text.data).map String.mk).foldl summaryParseStep ("", [])
      let summary := if parsed.1 = "" then takeStr text 300 else parsed.1
      (takeStr summary 300, parsed.2.take 6)

/-- A document record as stored in the Firestore `files` collection, viewed
through `doc.to_dict()`: fields read with `data["k"]` are mandatory, fields
read with `data.get("k", default)` are optional (`none` models a missing
key; for `summary`, Python cannot distinguish a missing key from a stored
`None`, and neither does this model). Timestamps are abstract instants. -/
structure StoredDoc where
  name : String
  type : String
  size_bytes : Option Nat
  storage_path : Option String
  public_url : Option String
  store_name : Option String
  document_name : Option String
  summary : Option String
  keywords : Option (List String)
  created_at : Nat
  updated_at : Option Nat
deriving DecidableEq, Repr

/-- The observable state of the three external systems: object-storage
paths holding a blob, display names imported into the semantic index, the
Firestore records (document id × data), and the counter the model uses to
mint fresh Firestore document ids. -/
structure World where
  blobs : List String
  indexEntries : List String
  records : List (String × StoredDoc)
  nextDocId : Nat
deriving DecidableEq, Repr

/-- The `FileResponse` schema returned by the API (schemas/file.py). -/
structure FileResponse where
  id : String
  name : String
  type : String
  size_bytes : Nat
  summary : Option String
  keywords : List String
  created_at : Nat
  updated_at : Nat
deriving DecidableEq, Repr

/-- The `Pagination` schema (schemas/file.py). -/
structure Pagination where
  page : Nat
  page_size : Nat
  total_pages : Nat
  total_files : Nat
deriving DecidableEq, Repr

/-- The `FileListResponse` schema (schemas/file.py). -/
structure FileListResponse where
  files : List FileResponse
  pagination : Pagination
deriving DecidableEq, Repr

/-- `collection.document(id).get()`: the first record with the given id
(Firestore ids are unique, so first = only). -/
def lookupRecord (records : List (String × StoredDoc)) (file_id : String) :
    Option StoredDoc :=
  (records.find? fun p => p.1 = file_id).map (·.2)

/-- The `FileResponse(...)` construction shared by `get_file` and
`list_files`: absent `size_bytes` becomes 0, absent `keywords` becomes
`[]`, absent `updated_at` becomes `created_at`. -/
def to_file_response (id : String) (data : StoredDoc) : FileResponse :=
  { id := id
    name := data.name
    type := data.type
    size_bytes := data.size_bytes.getD 0
    summary := data.summary
    keywords := data.keywords.getD []
    created_at := data.created_at
    updated_at := data.updated_at.getD data.created_at }

/-- `FileService.get_file`: 404 when the document does not exist, else the
record mapped through the defaulting constructor. -/
def get_file (records : List (String × StoredDoc)) (file_id : String) :
    Except HTTPError FileResponse :=
  match lookupRecord records file_id with
  | none => .error ⟨404, "File not found"⟩
  | some data => .ok (to_file_response file_id data)

/-- The Firestore query `order_by("created_at", DESCENDING)` over the
collection, as a Boolean comparison for `mergeSort`. -/
def createdDescLe (p q : String × StoredDoc) : Bool :=
  q.2.created_at ≤ p.2.created_at

/-- `FileService.list_files`: order by creation time descending, apply
`offset = (page-1)*page_size` and `limit = page_size`, map through the
defaulting constructor, and report `total_files` (the collection count
aggregate) and `total_pages = (total_files + page_size - 1) // page_size`. -/
def list_files (records : List (String × StoredDoc)) (page page_size : Nat) :
    FileListResponse :=
  let offset := (page - 1) * page_size
  let sorted := records.mergeSort createdDescLe
  let selected := (sorted.drop offset).take page_size
  let files := selected.map fun p => to_file_response p.1 p.2
  let total_files := records.length
  let total_pages := (total_files + page_size - 1) / page_size
  { files := files
    pagination :=
      { page := page, page_size := page_size
        total_pages := total_pages, total_files := total_files } }

/-- The two external deletions `FileService.delete_file` can perform, in
the order it performs them. -/
inductive DeleteAction where
  | deleteMetadata (id : String)
  | tryDeleteBlob (path : String)
deriving DecidableEq, Repr

/-- `FileService.delete_file`: 404 when the record is absent; otherwise
delete the Firestore record FIRST, then, when a non-empty `storage_path`
is recorded, attempt the MinIO object deletion, swallowing (logging) its
failure — `blob_delete_ok` says whether `remove_object` would succeed.
The returned action list records the external deletions in order. -/
def delete_file (blob_delete_ok : Bool) (file_id : String) (w : World) :
    Except HTTPError Unit × World × List DeleteAction :=
  match lookupRecord w.records file_id with
  | none => (.error ⟨404, "File not found"⟩, w, [])
  | some data =>
    let w1 := { w with records := w.records.filter fun p => ¬ p.1 = file_id }
    match data.storage_path with
    | none => (.ok (), w1, [.deleteMetadata file_id])
    | some path =>
      if path = "" then
        (.ok (), w1, [.deleteMetadata file_id])
      else if blob_delete_ok then
        ({ w1 with blobs := w1.blobs.erase path } |> (.ok (), ·, [.deleteMetadata file_id, .tryDeleteBlob path]))
      else
        (.ok (), w1, [.deleteMetadata file_id, .tryDeleteBlob path])

/-- The `ChatResponse` schema (schemas/chat.py). -/
structure ChatResponse where
  response : String
deriving DecidableEq, Repr

/-- `ChatService.chat_with_file`: 404 when the document is absent; a 500
with a dedicated message when `gemini_file_search_store_name` is missing or
empty (Python falsiness); otherwise one generation call scoped to the store:
an SDK exception becomes 500 `Chat failed`, a falsy `response.text` becomes
500 `AI generated no response`, and text is returned as the answer. -/
def chat_with_file (gen : GenOutcome) (records : List (String × StoredDoc))
    (file_id _message : String) : Except HTTPError ChatResponse :=
  match lookupRecord records file_id with
  | none => .error ⟨404, "File not found"⟩
  | some data =>
    match data.store_name with
    | none => .error ⟨500, "File is not yet linked to a Gemini File Search store"⟩
    | some store_name =>
      if store_name = "" then
        .error ⟨500, "File is not yet linked to a Gemini File Search store"⟩
      else
        match gen with
        | .apiError msg => .error ⟨500, "Chat failed: " ++ msg⟩
        | .response none => .error ⟨500, "AI generated no response"⟩
        | .response (some text) =>
          if text = "" then .error ⟨500, "AI generated no response"⟩
          else .ok ⟨text⟩

/-- The status of a service result, for comparing error categories. -/
def exceptStatus {α : Type} (r : Except HTTPError α) : Option Nat :=
  match r with
  | .error e => some e.status
  | .ok _ => none

/-- The remote Gemini File Search service: the stores that exist, as
(resource name, display name) pairs, plus a counter from which the service
mints fresh resource names. -/
structure StoreRemote where
  stores : List (String × String)
  next_id : Nat
deriving DecidableEq, Repr

/-- The fixed display name `"servless-rag-store"` from
`GeminiService.get_or_create_store`. -/
def app_store_display : String := "servless-rag-store"

/-- Resource name the remote service assigns to the n-th created store. -/
def mk_store_name (n : Nat) : String :=
  "fileSearchStores/store-" ++ toString n

/-- The `for store in stores: if store.display_name == "servless-rag-store"`
scan over `file_search_stores.list()`. -/
def find_app_store (r : StoreRemote) : Option String :=
  (r.stores.find? fun s => s.2 = app_store_display).map (·.1)

/-- `file_search_stores.create(config={"display_name": ...})`. -/
def create_store (r : StoreRemote) : String × StoreRemote :=
  let name := mk_store_name r.next_id
  (name,
    { stores := r.stores ++ [(name, app_store_display)]
      next_id := r.next_id + 1 })

/-- `GeminiService.get_or_create_store`, run to completion without
interleaving: return the instance cache `_store_name` if set; else list the
remote stores and adopt the one with the app display name; else create one.
Returns (returned name, updated instance cache, updated remote). -/
def get_or_create_store (cache : Option String) (r : StoreRemote) :
    String × Option String × StoreRemote :=
  match cache with
  | some n => (n, some n, r)
  | none =>
    match find_app_store r with
    | some n => (n, some n, r)
    | none =>
      let (name, r2) := create_store r
      (name, some name, r2)

/-- Sequential first-time resolutions: each API request constructs a fresh
`FileService`, hence a fresh `GeminiService` whose `_store_name` cache is
`None` (`get_file_service` in api/v1/endpoints/files.py builds a new
instance per request), so every run starts with an empty cache.  Returns
the list of identifiers the calls returned and the final remote state. -/
def run_resolvers_seq : Nat → StoreRemote → List String × StoreRemote
  | 0, r => ([], r)
  | n + 1, r =>
    let (name, _, r2) := get_or_create_store none r
    let (rest, r3) := run_resolvers_seq n r2
    (name :: rest, r3)

/-- Control point of one in-flight `get_or_create_store` execution, at the
granularity of its remote API calls: `start` = about to read the cache and
issue `file_search_stores.list()`; `listed found` = holding the list result
and about to either adopt `found` or issue `create`; `done` = returned. -/
inductive ResolverPC where
  | start
  | listed (found : Option String)
  | finished (ret : String)
deriving DecidableEq, Repr

/-- One caller of `get_or_create_store` together with the `_store_name`
cache of the `GeminiService` instance it runs on. -/
structure ResolverTask where
  cache : Option String
  pc : ResolverPC
deriving DecidableEq, Repr

/-- One atomic step of a caller: the code between two remote API calls.
There is no lock in `get_or_create_store`, so steps of different callers
may interleave freely on a thread-per-request host. -/
def resolver_step (t : ResolverTask) (r : StoreRemote) : ResolverTask × StoreRemote :=
  match t.pc with
  | .start =>
    match t.cache with
    | some n => ({ t with pc := .finished n }, r)
    | none => ({ t with pc := .listed (find_app_store r) }, r)
  | .listed found =>
    match found with
    | some n => ({ cache := some n, pc := .finished n }, r)
    | none =>
      let (name, r2) := create_store r
      ({ cache := some name, pc := .finished name }, r2)
  | .finished _ => (t, r)

/-- Two concurrent callers (two requests, each with its own fresh
`GeminiService` instance) sharing the remote service. -/
structure TwoResolvers where
  a : ResolverTask
  b : ResolverTask
  remote : StoreRemote
deriving DecidableEq, Repr

/-- Run one scheduler choice: `true` steps caller A, `false` steps B. -/
def sched_step (s : TwoResolvers) (pick_a : Bool) : TwoResolvers :=
  if pick_a then
    let (a2, r2) := resolver_step s.a s.remote
    { s with a := a2, remote := r2 }
  else
    let (b2, r2) := resolver_step s.b s.remote
    { s with b := b2, remote := r2 }

/-- Run a schedule (a list of scheduler choices). -/
def run_sched (sched : List Bool) (s : TwoResolvers) : TwoResolvers :=
  sched.foldl sched_step s

/-- Two first-time callers on an initially store-less remote. -/
def fresh_two_resolvers : TwoResolvers :=
  { a := { cache := none, pc := .start }
    b := { cache := none, pc := .start }
    remote := { stores := [], next_id := 0 } }

/-- The identifier a finished caller returned. -/
def resolver_result (t : ResolverTask) : Option String :=
  match t.pc with
  | .finished n => some n
  | _ => none

/-- Trace of the wait loop of `GeminiService.upload_and_index_file` for
an operation that reports `done` only after `n` further polls:

    while not operation.done:
        time.sleep(2)
        operation = self.client.operations.get(operation)

`time.sleep` blocks the calling OS thread outright; since
`upload_and_index_file` is an `async def` awaited on the event loop and the
loop contains no `await`, the step is modelled as `blockingSleep`, never as
`yieldControl` (the event the loop would emit if it used
`await asyncio.sleep`), and every status check is a `poll`. -/
inductive PollEvent where
  | poll
  | blockingSleep (seconds : Nat)
  | yieldControl
deriving DecidableEq, Repr

/-- The sequence of events the poll loop emits when the operation becomes
done after `n` more polls. -/
def poll_loop_trace : Nat → List PollEvent
  | 0 => []
  | n + 1 => PollEvent.blockingSleep 2 :: PollEvent.poll :: poll_loop_trace n

/-- Outcome of `GeminiService.upload_and_index_file` as observed by the
pipeline: either it returns `(store_name, document_name | None)` after the
poll loop, or one of its SDK calls raises. -/
inductive IndexOutcome where
  | ok (store_name : String) (document_name : Option String)
  | raisedError (msg : String)
deriving DecidableEq, Repr

/-- `FileService._generate_storage_path`: timestamp and random suffix are
environment inputs; sanitisation keeps alphanumerics, dot, underscore and
hyphen. -/
def generate_storage_path (user_id filename timestamp unique_id : String) : String :=
  let safe := String.mk (filename.data.filter fun c =>
    c.isAlphanum || c = '.' || c = '_' || c = '-')
  "files/" ++ user_id ++ "/" ++ timestamp ++ "_" ++ unique_id ++ "_" ++ safe

/-- The public URL `_upload_to_storage` derives for a stored object. -/
def public_url_for (storage_path : String) : String :=
  "http://localhost:9000/servless-rag/" ++ storage_path

/-- Environment of one `FileService.upload_file` run: the
`mimetypes.guess_type` oracle, whether the MinIO `put_object` call
succeeds, the outcome of the Gemini indexing call, the outcome of the
summarisation generation call, the server-side timestamp, and the
timestamp/random components of the storage path. -/
structure UploadEnv where
  guess_type : String → Option String
  storage_ok : Bool
  index_outcome : IndexOutcome
  summary_outcome : GenOutcome
  now : Nat
  timestamp_str : String
  unique_id : String

/-- `FileService.upload_file`, the ingestion pipeline:

1. `validate_file`; a validation error propagates with the world untouched.
2. `_upload_to_storage`: on MinIO failure, 500 with no state change; on
   success the blob is recorded under the generated path.
3. `upload_and_index_file`: an exception propagates out of the service
   (the endpoint wraps it as a 500); the `finally` block removes only the
   local temp file, so the just-written blob stays in `blobs` and no
   metadata record is created.
4. `generate_summary_and_keywords`: a total call (its own `try/except`
   returns a marked failure), so the `except` arm that would set
   `summary = None` in `upload_file` is unreachable and the returned
   summary string is stored as-is.
5. The metadata record is written to Firestore with a fresh id and
   server timestamps, and mirrored back as the response. -/
def upload_file (env : UploadEnv) (file : UploadFile) (user_id : String) (w : World) :
    Except HTTPError FileResponse × World :=
  match validate_file env.guess_type file with
  | .error e => (.error e, w)
  | .ok (file_type, file_size) =>
    let storage_path := generate_storage_path user_id file.filename env.timestamp_str env.unique_id
    if env.storage_ok = false then
      (.error ⟨500, "Storage upload failed"⟩, w)
    else
      let w1 : World := { w with blobs := w.blobs ++ [storage_path] }
      match env.index_outcome with
      | .raisedError msg => (.error ⟨500, "File Upload failed : " ++ msg⟩, w1)
      | .ok store_name document_name =>
        let w2 : World := { w1 with indexEntries := w1.indexEntries ++ [file.filename] }
        let sk := generate_summary_and_keywords env.summary_outcome
        let doc : StoredDoc :=
          { name := file.filename
            type := file_type
            size_bytes := some file_size
            storage_path := some storage_path
            public_url := some (public_url_for storage_path)
            store_name := some store_name
            document_name := document_name
            summary := some sk.1
            keywords := some sk.2
            created_at := env.now
            updated_at := some env.now }
        let doc_id := "doc-" ++ toString w2.nextDocId
        let w3 : World :=
          { w2 with records := w2.records ++ [(doc_id, doc)], nextDocId := w2.nextDocId + 1 }
        (.ok { id := doc_id
               name := file.filename
               type := file_type
               size_bytes := file_size
               summary := some sk.1
               keywords := sk.2
               created_at := env.now
               updated_at := env.now }, w3)

/-- Shared test fixtures for witnesses. -/
def emptyWorld : World :=
  { blobs := [], indexEntries := [], records := [], nextDocId := 0 }

/-- A benign environment: storage and indexing succeed, summarisation gets
an empty response. -/
def sampleEnv : UploadEnv :=
  { guess_type := python_guess_type
    storage_ok := true
    index_outcome := .ok "fileSearchStores/store-0" none
    summary_outcome := .response none
    now := 0
    timestamp_str := "20241120_100000"
    unique_id := "abcd1234" }

/-- Type resolution as the specification words it: prefer the lower-cased
filename extension when allowed, otherwise map the DECLARED content type of
the upload through the fixed table, otherwise fall back to the raw
extension.  Stated for comparison with `resolve_file_type`, which instead
consults `mimetypes.guess_type(file.filename)` and never reads the
declared content type. -/
def resolve_file_type_spec (filename : String) (declared_content_type : Option String) : String :=
  let file_extension := fileExtension filename
  if file_extension ∈ ALLOWED_FILE_TYPES then
    file_extension
  else
    match declared_content_type with
    | some mime_type => (mime_to_ext.lookup mime_type).getD file_extension
    | none => file_extension

/-- Environment where summarisation raises a transport error but storage
and indexing succeed. -/
def c8_env : UploadEnv :=
  { sampleEnv with summary_outcome := .apiError "boom" }

/-- Environment where the blob upload succeeds and the Gemini indexing call
raises. -/
def c1_env : UploadEnv :=
  { sampleEnv with index_outcome := .raisedError "index down" }

/-- A minimal stored document with a given creation instant. -/
def mk_doc (t : Nat) : StoredDoc :=
  { name := "d.pdf", type := "pdf", size_bytes := some 1
    storage_path := some "p", public_url := none
    store_name := some "fileSearchStores/store-0", document_name := none
    summary := none, keywords := some [], created_at := t, updated_at := some t }

/-- A record that was never linked to a File Search store. -/
def c3_unlinked_doc : StoredDoc :=
  { mk_doc 0 with store_name := none }

/-- A record for the delete scenario: metadata exists, a storage path is
recorded. -/
def c4_doc : StoredDoc :=
  { name := "report.pdf", type := "pdf", size_bytes := some 2500000
    storage_path := some "files/anonymous/20241120_100000_abcd1234_report.pdf"
    public_url := none, store_name := some "fileSearchStores/store-0"
    document_name := none, summary := none, keywords := none
    created_at := 5, updated_at := some 5 }

def c4_world : World :=
  { blobs := ["files/anonymous/20241120_100000_abcd1234_report.pdf"]
    indexEntries := ["report.pdf"], records := [("f1", c4_doc)], nextDocId := 1 }

def c6_docs : List (String × StoredDoc) :=
  [("a", mk_doc 1), ("b", mk_doc 3), ("c", mk_doc 2)]

/-- A record with every optional field absent. -/
def c10_doc : StoredDoc :=
  { name := "old.pdf", type := "pdf", size_bytes := none
    storage_path := none, public_url := none
    store_name := none, document_name := none
    summary := none, keywords := none, created_at := 7, updated_at := none }

example : validate_file python_guess_type ⟨"report.pdf", [1, 2, 3], some "application/pdf"⟩ =
    .ok ("pdf", 3) := by decide

example : validate_file python_guess_type ⟨"virus.exe", [1], none⟩ =
    .error ⟨400, "File type not allowed"⟩ := by decide

example : validate_file python_guess_type ⟨"", [1], none⟩ =
    .error ⟨400, "File must have a filename"⟩ := by decide

example :
    generate_summary_and_keywords
      (.response (some "SUMMARY: A tidy report.\nKEYWORDS: alpha, beta, [gamma]")) =
    ("A tidy report.", ["alpha", "beta", "gamma"]) := by decide

example :
    generate_summary_and_keywords (.response (some "free text with no tags")) =
    ("free text with no tags", []) := by decide

example : generate_summary_and_keywords (.apiError "rate limit") =
    ("Summary generation failed", []) := by decide

example : generate_summary_and_keywords (.response none) =
    ("No summary available", []) := by decide

/-- Removing the record with a given id makes it unfindable. -/
theorem lookupRecord_remove_self (records : List (String × StoredDoc)) (id : String) :
    lookupRecord (records.filter fun p => ¬ p.1 = id) id = none := by
  have h : (records.filter fun p => ¬ p.1 = id).find? (fun p => p.1 = id) = none := by
    rw [List.find?_eq_none]
    intro x hx
    have hmem := (List.mem_filter.1 hx).2
    simpa using hmem
  simp [lookupRecord, h]

/-- C2: an upload whose byte length exceeds the 100 MiB maximum fails with
the 413 payload-too-large error and leaves the external world untouched:
no blob written, no index entry, no metadata record.  (The validator runs
before any external call; an upload with no filename at all would fail
even earlier, with the 400 filename error, equally without side effects.) -/
theorem C2_payload_too_large_no_side_effects
    (env : UploadEnv) (file : UploadFile) (user_id : String) (w : World)
    (hname : ¬ file.filename = "")
    (hsize : file.content.length > MAX_FILE_SIZE) :
    upload_file env file user_id w =
      (.error ⟨413, "File size exceeds maximum"⟩, w) := by
  simp [upload_file, validate_file, hname, hsize]

theorem C2_witness :
    upload_file sampleEnv ⟨"big.pdf", List.replicate (MAX_FILE_SIZE + 1) 0, none⟩ "anonymous" emptyWorld =
      (.error ⟨413, "File size exceeds maximum"⟩, emptyWorld) :=
  C2_payload_too_large_no_side_effects sampleEnv _ "anonymous" emptyWorld
    (by decide) (by simp)

/-- C4: deleting an unknown id fails with 404 and changes nothing; deleting
an existing id removes the metadata record first (head of the action
trace), attempts the blob deletion second when a non-empty storage path is
recorded, succeeds even when the blob deletion fails (`blob_delete_ok =
false`), and afterwards `get_file` on the same id answers 404. -/
theorem C4_delete_metadata_first_blob_best_effort
    (blob_delete_ok : Bool) (file_id : String) (w : World) :
    (lookupRecord w.records file_id = none →
      delete_file blob_delete_ok file_id w = (.error ⟨404, "File not found"⟩, w, []))
    ∧ (∀ d, lookupRecord w.records file_id = some d →
        (delete_file blob_delete_ok file_id w).1 = .ok ()
        ∧ (delete_file blob_delete_ok file_id w).2.2.head? = some (.deleteMetadata file_id)
        ∧ (∀ path, d.storage_path = some path → ¬ path = "" →
            (delete_file blob_delete_ok file_id w).2.2 =
              [.deleteMetadata file_id, .tryDeleteBlob path])
        ∧ get_file (delete_file blob_delete_ok file_id w).2.1.records file_id =
            .error ⟨404, "File not found"⟩) := by
  constructor
  · intro h
    simp [delete_file, h]
  · intro d hd
    have hrec : (delete_file blob_delete_ok file_id w).2.1.records =
        w.records.filter fun p => ¬ p.1 = file_id := by
      cases hsp : d.storage_path with
      | none => simp [delete_file, hd, hsp]
      | some path =>
        by_cases hp : path = "" <;>
          cases blob_delete_ok <;> simp [delete_file, hd, hsp, hp]
    refine ⟨?_, ?_, ?_, ?_⟩
    · cases hsp : d.storage_path with
      | none => simp [delete_file, hd, hsp]
      | some path =>
        by_cases hp : path = "" <;>
          cases blob_delete_ok <;> simp [delete_file, hd, hsp, hp]
    · cases hsp : d.storage_path with
      | none => simp [delete_file, hd, hsp]
      | some path =>
        by_cases hp : path = "" <;>
          cases blob_delete_ok <;> simp [delete_file, hd, hsp, hp]
    · intro path hsp hp
      cases blob_delete_ok <;> simp [delete_file, hd, hsp, hp]
    · rw [get_file, hrec, lookupRecord_remove_self]

theorem C4_witness :
    (delete_file false "f1" c4_world).1 = .ok ()
    ∧ (delete_file false "f1" c4_world).2.2.head? = some (.deleteMetadata "f1")
    ∧ get_file (delete_file false "f1" c4_world).2.1.records "f1" =
        .error ⟨404, "File not found"⟩ := by
  have h := (C4_delete_metadata_first_blob_best_effort false "f1" c4_world).2 c4_doc (by decide)
  exact ⟨h.1, h.2.1, h.2.2.2⟩

/-- C6: for `page ≥ 1`, `page_size ≥ 1`, the listing reports
`total_pages = ⌈total_files / page_size⌉`, selects exactly the
`offset = (page-1)*page_size`, `limit = page_size` window of the records
ordered by creation time descending, that ordering is genuinely
non-increasing in `created_at`, and a page beyond the last yields an empty
(error-free) page. -/
theorem C6_pagination_law (records : List (String × StoredDoc)) (page page_size : Nat)
    (hpage : 1 ≤ page) (hps : 1 ≤ page_size) :
    (list_files records page page_size).pagination.total_pages = records.length ⌈/⌉ page_size
    ∧ (list_files records page page_size).files =
        (((records.mergeSort createdDescLe).drop ((page - 1) * page_size)).take page_size).map
          (fun p => to_file_response p.1 p.2)
    ∧ (records.mergeSort createdDescLe).Pairwise
        (fun p q => q.2.created_at ≤ p.2.created_at)
    ∧ (page > (list_files records page page_size).pagination.total_pages →
        (list_files records page page_size).files = []) := by
  refine ⟨?_, rfl, ?_, ?_⟩
  · simp [list_files, Nat.ceilDiv_eq_add_pred_div]
  · have htrans : ∀ a b c : String × StoredDoc,
        createdDescLe a b → createdDescLe b c → createdDescLe a c := by
      intro a b c hab hbc
      simp only [createdDescLe, decide_eq_true_eq] at *
      omega
    have htotal : ∀ a b : String × StoredDoc,
        createdDescLe a b || createdDescLe b a := by
      intro a b
      simp only [createdDescLe, Bool.or_eq_true, decide_eq_true_eq]
      omega
    have h : (records.mergeSort createdDescLe).Pairwise
        (fun p q => createdDescLe p q = true) :=
      List.sorted_mergeSort htrans htotal records
    exact h.imp (fun hab => by simpa [createdDescLe] using hab)
  · intro hgt
    simp only [list_files] at hgt
    have h1 : records.length ≤ ((records.length + page_size - 1) / page_size) * page_size := by
      have h0 : (0 : ℕ) < page_size := hps
      have hle : records.length ≤ page_size • (records.length ⌈/⌉ page_size) :=
        le_smul_ceilDiv h0
      simpa [smul_eq_mul, Nat.ceilDiv_eq_add_pred_div, Nat.mul_comm] using hle
    have h2 : ((records.length + page_size - 1) / page_size) * page_size
        ≤ (page - 1) * page_size :=
      Nat.mul_le_mul_right _ (by omega)
    have h3 : (records.mergeSort createdDescLe).length ≤ (page - 1) * page_size := by
      rw [List.length_mergeSort]; omega
    simp [list_files, List.drop_eq_nil_of_le h3]

theorem C6_witness :
    (list_files c6_docs 3 2).pagination.total_pages = 2
    ∧ (list_files c6_docs 3 2).files = [] := by
  have h := C6_pagination_law c6_docs 3 2 (by decide) (by decide)
  refine ⟨?_, ?_⟩
  · rw [h.1]; decide
  · exact h.2.2.2 (by rw [h.1]; decide)

/-- C10: a stored record missing the optional fields still round-trips
through both point lookup and listing: `get_file` succeeds and substitutes
`size_bytes = 0`, `keywords = []`, `updated_at = created_at`, and the same
defaulted view appears in the listing (here: the single full page). -/
theorem C10_missing_optional_fields_defaulted
    (records : List (String × StoredDoc)) (id : String) (d : StoredDoc)
    (hd : lookupRecord records id = some d)
    (hsz : d.size_bytes = none) (hkw : d.keywords = none) (hup : d.updated_at = none) :
    get_file records id = .ok (to_file_response id d)
    ∧ (to_file_response id d).size_bytes = 0
    ∧ (to_file_response id d).keywords = []
    ∧ (to_file_response id d).updated_at = d.created_at
    ∧ to_file_response id d ∈ (list_files records 1 records.length).files := by
  refine ⟨by simp [get_file, hd], by simp [to_file_response, hsz],
    by simp [to_file_response, hkw], by simp [to_file_response, hup], ?_⟩
  obtain ⟨p0, hp0, hp2⟩ := Option.map_eq_some'.1 hd
  have hmem0 : p0 ∈ records := List.mem_of_find?_eq_some hp0
  have hid : p0.1 = id := by simpa using List.find?_some hp0
  have hmem : (id, d) ∈ records := by
    have hpair : p0 = (id, d) := by
      cases p0
      simp_all
    rwa [hpair] at hmem0
  have hsortmem : (id, d) ∈ records.mergeSort createdDescLe :=
    List.mem_mergeSort.2 hmem
  have hlen : (records.mergeSort createdDescLe).length = records.length := by
    simp
  simp only [list_files, Nat.sub_self, Nat.zero_mul, List.drop_zero]
  rw [← hlen, List.take_length]
  exact List.mem_map_of_mem _ hsortmem

theorem C10_witness :
    get_file [("f1", c10_doc)] "f1" = .ok (to_file_response "f1" c10_doc)
    ∧ (to_file_response "f1" c10_doc).size_bytes = 0
    ∧ (to_file_response "f1" c10_doc).keywords = []
    ∧ (to_file_response "f1" c10_doc).updated_at = 7
    ∧ to_file_response "f1" c10_doc ∈ (list_files [("f1", c10_doc)] 1 1).files := by
  have h := C10_missing_optional_fields_defaulted [("f1", c10_doc)] "f1" c10_doc
    (by decide) (by decide) (by decide) (by decide)
  exact ⟨h.1, h.2.1, h.2.2.1, h.2.2.2.1, by simpa using h.2.2.2.2⟩

/-- C7 counterexample: an upload named `notes.foo` declared as
`text/plain`.  Under the claimed procedure the declared content type maps
to `txt`, which is allowed, so validation would succeed; the code instead
asks `mimetypes.guess_type("notes.foo")`, which knows no `.foo` suffix,
falls back to the raw extension `foo`, and rejects the upload. -/
theorem C7_counterexample :
    validate_file python_guess_type ⟨"notes.foo", [1], some "text/plain"⟩ =
        .error ⟨400, "File type not allowed"⟩
    ∧ resolve_file_type python_guess_type "notes.foo" = "foo"
    ∧ resolve_file_type_spec "notes.foo" (some "text/plain") = "txt"
    ∧ "txt" ∈ ALLOWED_FILE_TYPES
    ∧ python_guess_type "notes.foo" = none := by decide

/-- C7 (amended): the resolved type prefers the lower-cased filename
extension when allowed; otherwise it maps the MIME type GUESSED FROM THE
FILENAME (`mimetypes.guess_type`), not the declared content type, through
the fixed table with the raw extension as default; with no guess it falls
back to the raw extension; and for a named, size-admissible upload,
validation fails with the 400 invalid-type error exactly when the resolved
type is outside the allowed set. -/
theorem C7_type_resolution (guess_type : String → Option String) (file : UploadFile)
    (hname : ¬ file.filename = "")
    (hsize : file.content.length ≤ MAX_FILE_SIZE) :
    (fileExtension file.filename ∈ ALLOWED_FILE_TYPES →
        resolve_file_type guess_type file.filename = fileExtension file.filename)
    ∧ (fileExtension file.filename ∉ ALLOWED_FILE_TYPES →
        ∀ m, guess_type file.filename = some m →
          resolve_file_type guess_type file.filename =
            (mime_to_ext.lookup m).getD (fileExtension file.filename))
    ∧ (fileExtension file.filename ∉ ALLOWED_FILE_TYPES →
        guess_type file.filename = none →
          resolve_file_type guess_type file.filename = fileExtension file.filename)
    ∧ (resolve_file_type guess_type file.filename ∈ ALLOWED_FILE_TYPES →
        validate_file guess_type file =
          .ok (resolve_file_type guess_type file.filename, file.content.length))
    ∧ (resolve_file_type guess_type file.filename ∉ ALLOWED_FILE_TYPES →
        validate_file guess_type file = .error ⟨400, "File type not allowed"⟩) := by
  have hns : ¬ file.content.length > MAX_FILE_SIZE := by omega
  refine ⟨?_, ?_, ?_, ?_, ?_⟩
  · intro h
    simp [resolve_file_type, h]
  · intro h m hm
    simp [resolve_file_type, h, hm]
  · intro h hm
    simp [resolve_file_type, h, hm]
  · intro h
    simp [validate_file, hname, hns, h]
  · intro h
    simp [validate_file, hname, hns, h]

theorem C7_witness :
    resolve_file_type python_guess_type "report.PDF" = "pdf"
    ∧ validate_file python_guess_type ⟨"report.PDF", [1, 2], some "application/pdf"⟩ =
        .ok ("pdf", 2)
    ∧ resolve_file_type python_guess_type "virus.exe" = "exe"
    ∧ validate_file python_guess_type ⟨"virus.exe", [1], none⟩ =
        .error ⟨400, "File type not allowed"⟩ := by
  have h1 := C7_type_resolution python_guess_type ⟨"report.PDF", [1, 2], some "application/pdf"⟩
    (by decide) (by simp [MAX_FILE_SIZE])
  have h2 := C7_type_resolution python_guess_type ⟨"virus.exe", [1], none⟩
    (by decide) (by simp [MAX_FILE_SIZE])
  refine ⟨by decide, ?_, by decide, ?_⟩
  · exact (by simpa using h1.2.2.2.1 (by decide))
  · exact (by simpa using h2.2.2.2.2 (by decide))

/-- C8 counterexample: on a summarisation transport error the pipeline does
proceed, but the persisted summary is the marked string
`"Summary generation failed"` — a PRESENT value — not an absent summary as
the claim states. -/
theorem C8_counterexample :
    (upload_file c8_env ⟨"report.pdf", [1, 2], some "application/pdf"⟩ "anonymous" emptyWorld).1 =
      .ok { id := "doc-0", name := "report.pdf", type := "pdf", size_bytes := 2
            summary := some "Summary generation failed", keywords := []
            created_at := 0, updated_at := 0 }
    ∧ ¬ (some "Summary generation failed" = (none : Option String)) := by decide

/-- C8 (amended): the summarisation step never raises to its caller — on a
transport error it returns the clearly-marked failure summary
`"Summary generation failed"` and an empty keyword list — and such a
failure degrades the ingestion to that stored marked summary and empty
keywords instead of aborting the pipeline (the summary is stored, not
absent). -/
theorem C8_summarisation_never_aborts
    (env : UploadEnv) (file : UploadFile) (user_id : String) (w : World)
    (msg store_name : String) (document_name : Option String)
    (hname : ¬ file.filename = "")
    (hsize : file.content.length ≤ MAX_FILE_SIZE)
    (htype : resolve_file_type env.guess_type file.filename ∈ ALLOWED_FILE_TYPES)
    (hst : env.storage_ok = true)
    (hix : env.index_outcome = .ok store_name document_name)
    (hsum : env.summary_outcome = .apiError msg) :
    generate_summary_and_keywords env.summary_outcome = ("Summary generation failed", [])
    ∧ (upload_file env file user_id w).1 =
        .ok { id := "doc-" ++ toString w.nextDocId
              name := file.filename
              type := resolve_file_type env.guess_type file.filename
              size_bytes := file.content.length
              summary := some "Summary generation failed"
              keywords := []
              created_at := env.now
              updated_at := env.now } := by
  have hns : ¬ file.content.length > MAX_FILE_SIZE := by omega
  constructor
  · rw [hsum]
    rfl
  · simp [upload_file, validate_file, hname, hns, htype, hst, hix, hsum,
      generate_summary_and_keywords]

theorem C8_witness :
    (upload_file c8_env ⟨"notes.txt", [1, 2, 3], some "text/plain"⟩ "anonymous" emptyWorld).1 =
      .ok { id := "doc-0", name := "notes.txt", type := "txt", size_bytes := 3
            summary := some "Summary generation failed", keywords := []
            created_at := 0, updated_at := 0 } := by
  have h := C8_summarisation_never_aborts c8_env ⟨"notes.txt", [1, 2, 3], some "text/plain"⟩
    "anonymous" emptyWorld "boom" "fileSearchStores/store-0" none
    (by decide) (by simp [MAX_FILE_SIZE]) (by decide) rfl rfl rfl
  simpa using h.2

/-- C1 counterexample: blob upload succeeded, indexing raised.  The
pipeline aborts with the index error and creates no metadata record, but
the just-written blob is STILL in object storage afterwards — no
compensating delete is attempted (`upload_file` has no `remove_object`
call; its `finally` removes only the local temp file). -/
theorem C1_counterexample :
    (upload_file c1_env ⟨"report.pdf", [1, 2], some "application/pdf"⟩ "anonymous" emptyWorld).1 =
      .error ⟨500, "File Upload failed : index down"⟩
    ∧ (upload_file c1_env ⟨"report.pdf", [1, 2], some "application/pdf"⟩ "anonymous" emptyWorld).2.records = []
    ∧ "files/anonymous/20241120_100000_abcd1234_report.pdf" ∈
        (upload_file c1_env ⟨"report.pdf", [1, 2], some "application/pdf"⟩ "anonymous" emptyWorld).2.blobs := by
  decide

/-- C1 (amended): when the blob upload has succeeded and the indexing step
fails, the pipeline aborts surfacing the index error and creates no
metadata record and no index entry, but performs NO compensating deletion:
the final world differs from the initial one exactly by the just-written
blob, which remains in object storage. -/
theorem C1_index_failure_aborts_without_compensation
    (env : UploadEnv) (file : UploadFile) (user_id : String) (w : World) (msg : String)
    (hname : ¬ file.filename = "")
    (hsize : file.content.length ≤ MAX_FILE_SIZE)
    (htype : resolve_file_type env.guess_type file.filename ∈ ALLOWED_FILE_TYPES)
    (hst : env.storage_ok = true)
    (hix : env.index_outcome = .raisedError msg) :
    upload_file env file user_id w =
      (.error ⟨500, "File Upload failed : " ++ msg⟩,
       { w with blobs := w.blobs ++
           [generate_storage_path user_id file.filename env.timestamp_str env.unique_id] }) := by
  have hns : ¬ file.content.length > MAX_FILE_SIZE := by omega
  simp [upload_file, validate_file, hname, hns, htype, hst, hix]

theorem C1_witness :
    upload_file c1_env ⟨"notes.txt", [9], none⟩ "anonymous" emptyWorld =
      (.error ⟨500, "File Upload failed : index down"⟩,
       { emptyWorld with blobs := ["files/anonymous/20241120_100000_abcd1234_notes.txt"] }) := by
  have h := C1_index_failure_aborts_without_compensation c1_env ⟨"notes.txt", [9], none⟩
    "anonymous" emptyWorld "index down"
    (by decide) (by simp [MAX_FILE_SIZE]) (by decide) rfl rfl
  simpa using h

/-- C3 counterexample: chatting about an existing but unlinked document
fails with HTTP status 500 — the SAME generic server-error status the
service uses for an arbitrary generation failure — distinguished only by
its message, not by a distinct non-server-error category. -/
theorem C3_counterexample :
    chat_with_file (.response (some "an answer")) [("f1", c3_unlinked_doc)] "f1" "what is this?" =
      .error ⟨500, "File is not yet linked to a Gemini File Search store"⟩
    ∧ exceptStatus
        (chat_with_file (.response (some "an answer")) [("f1", c3_unlinked_doc)] "f1" "what is this?") =
      exceptStatus (chat_with_file (.apiError "rate limit") [("f2", mk_doc 0)] "f2" "hi") := by
  decide

/-- C3 (amended): chat on a missing document fails with 404 `NotFound`;
chat on a document whose index-store identifier is absent (or empty) fails
with the dedicated message `File is not yet linked to a Gemini File Search
store`, but carried on HTTP status 500 — the same generic server-error
status as other chat failures, not a distinct category; otherwise the
message is delegated to the generation call scoped to the stored store
identifier, whose outcome is mapped as written in the service. -/
theorem C3_chat_dispatch (gen : GenOutcome) (records : List (String × StoredDoc))
    (file_id message : String) :
    (lookupRecord records file_id = none →
        chat_with_file gen records file_id message = .error ⟨404, "File not found"⟩)
    ∧ (∀ d, lookupRecord records file_id = some d →
        (d.store_name = none ∨ d.store_name = some "") →
        chat_with_file gen records file_id message =
          .error ⟨500, "File is not yet linked to a Gemini File Search store"⟩)
    ∧ (∀ d s, lookupRecord records file_id = some d → d.store_name = some s → ¬ s = "" →
        chat_with_file gen records file_id message =
          match gen with
          | .apiError m => .error ⟨500, "Chat failed: " ++ m⟩
          | .response none => .error ⟨500, "AI generated no response"⟩
          | .response (some t) =>
            if t = "" then .error ⟨500, "AI generated no response"⟩ else .ok ⟨t⟩) := by
  refine ⟨?_, ?_, ?_⟩
  · intro h
    simp [chat_with_file, h]
  · intro d hd hs
    rcases hs with hs | hs <;> simp [chat_with_file, hd, hs]
  · intro d s hd hs hne
    simp [chat_with_file, hd, hs, hne]

theorem C3_witness :
    chat_with_file (.response (some "an answer")) [] "does-not-exist" "hi" =
      .error ⟨404, "File not found"⟩
    ∧ chat_with_file (.apiError "down") [("f1", c3_unlinked_doc)] "f1" "hi" =
      .error ⟨500, "File is not yet linked to a Gemini File Search store"⟩
    ∧ chat_with_file (.response (some "an answer")) [("f2", mk_doc 0)] "f2" "hi" =
      .ok ⟨"an answer"⟩ := by
  refine ⟨?_, ?_, ?_⟩
  · exact (C3_chat_dispatch _ [] "does-not-exist" "hi").1 (by decide)
  · exact (C3_chat_dispatch _ [("f1", c3_unlinked_doc)] "f1" "hi").2.1 c3_unlinked_doc
      (by decide) (Or.inl (by decide))
  · have h := (C3_chat_dispatch (.response (some "an answer")) [("f2", mk_doc 0)] "f2" "hi").2.2
      (mk_doc 0) "fileSearchStores/store-0" (by decide) (by decide) (by decide)
    simpa using h

/-- C5 counterexample: two concurrent first-time resolutions, each on its
own per-request `GeminiService` instance (fresh `_store_name` cache) with
no lock, interleaved list-then-create: both list before either creates.
Both callers finish, they observe DIFFERENT store identifiers, and TWO
stores carrying the app display name now exist remotely. -/
theorem C5_counterexample :
    resolver_result (run_sched [true, false, true, false] fresh_two_resolvers).a =
        some "fileSearchStores/store-0"
    ∧ resolver_result (run_sched [true, false, true, false] fresh_two_resolvers).b =
        some "fileSearchStores/store-1"
    ∧ ¬ ("fileSearchStores/store-0" = "fileSearchStores/store-1")
    ∧ ((run_sched [true, false, true, false] fresh_two_resolvers).remote.stores.filter
        fun s => s.2 = app_store_display).length = 2 := by
  decide

/-- After a creation on a remote that had no matching store, the scan finds
exactly the created store. -/
theorem find_app_store_after_create (r : StoreRemote) (h : find_app_store r = none) :
    find_app_store (create_store r).2 = some (mk_store_name r.next_id) := by
  have h0 : r.stores.find? (fun s => s.2 = app_store_display) = none := by
    cases hf : r.stores.find? (fun s => s.2 = app_store_display) with
    | none => rfl
    | some p => simp [find_app_store, hf] at h
  simp [find_app_store, create_store, List.find?_append, h0]

/-- Once the remote holds a discoverable app store, every further
sequential resolution returns it and changes nothing. -/
theorem run_resolvers_seq_found (nm : String) :
    ∀ (n : Nat) (r : StoreRemote), find_app_store r = some nm →
      run_resolvers_seq n r = (List.replicate n nm, r) := by
  intro n
  induction n with
  | zero => intro r _; rfl
  | succ k ih =>
    intro r h
    simp [run_resolvers_seq, get_or_create_store, h, ih r h, List.replicate]

/-- C5 (amended): when resolutions run to completion one at a time
(no interleaving), every call — even across fresh per-request service
instances whose caches start empty — returns the same store identifier,
and exactly one store is ever created on a remote that starts without
one.  (The unqualified claim, covering interleaved first-time calls,
fails: see the interleaving above.) -/
theorem C5_sequential_resolve_once (n : Nat) (r0 : StoreRemote)
    (h : find_app_store r0 = none) :
    (run_resolvers_seq (n + 1) r0).1 = List.replicate (n + 1) (mk_store_name r0.next_id)
    ∧ (run_resolvers_seq (n + 1) r0).2.stores =
        r0.stores ++ [(mk_store_name r0.next_id, app_store_display)] := by
  have h2 := find_app_store_after_create r0 h
  have h3 := run_resolvers_seq_found (mk_store_name r0.next_id) n (create_store r0).2 h2
  simp only [create_store] at h3
  constructor <;>
    simp [run_resolvers_seq, get_or_create_store, h, h3, create_store, List.replicate]

theorem C5_witness :
    (run_resolvers_seq 2 { stores := [], next_id := 0 }).1 =
      ["fileSearchStores/store-0", "fileSearchStores/store-0"]
    ∧ (run_resolvers_seq 2 { stores := [], next_id := 0 }).2.stores =
      [("fileSearchStores/store-0", app_store_display)] := by
  have h := C5_sequential_resolve_once 1 { stores := [], next_id := 0 } (by decide)
  constructor
  · rw [h.1]
    decide
  · rw [h.2]
    decide

/-- C9: the wait loop of `upload_and_index_file` never emits a cooperative
yield — for every pending duration there is no `yieldControl` event in its
trace — and whenever the operation is not already done the loop emits a
blocking two-second sleep, which on the shared event loop halts every
other request. -/
theorem C9_poll_wait_is_blocking_sleep (n : Nat) :
    PollEvent.yieldControl ∉ poll_loop_trace n
    ∧ PollEvent.blockingSleep 2 ∈ poll_loop_trace (n + 1) := by
  induction n with
  | zero => exact ⟨by simp [poll_loop_trace], by simp [poll_loop_trace]⟩
  | succ k ih =>
    exact ⟨by simpa [poll_loop_trace] using ih.1, by simp [poll_loop_trace]⟩
